import Mathlib

/-!
Shallow embedding of `transformer_from_scratch.ipynb` (repository
`anudeep22003/ai-learning`).

The notebook builds a Transformer encoder-decoder on top of PyTorch.  The
embedding below models, faithfully to the source cells:

* `forward_mask` (causal mask via `torch.triu(ones, diagonal=1) == 0`);
* `attention` (scaled dot-product attention; note the source fills masked
  scores with the constant `1e-9`, a small *positive* number);
* the shape behaviour of `MultiHeadAttention.forward`, step by step
  (linear projections, `view`, `transpose`, batched `matmul`, and the
  tuple unpacking `x, self.attn = attention(...)` of a single tensor);
* `MultiHeadAttention.__init__` (the `assert d_model % h == 0` guard and
  the `clone` call whose `isinstance` check references the module
  `numbers`, which the notebook never imports);
* `LayerNorm` (whose `forward` reads the bare global name `eps`, never
  defined — `__init__` stores `self.eps`);
* `Sublayer` (whose `forward` reads the attribute `self.norm`, never set —
  `__init__` sets `self.layernorm`);
* `Encoder`/`Decoder` stacks (whose `forward` loops over the bare global
  names `encoder_stack`/`decoder_stack`, never defined).

Python name/attribute lookups that the notebook leaves unresolved are
modelled with `Option`: the value the lookup would find if it existed, or
`none` for the `NameError`/`AttributeError` the interpreter raises.
Floating-point arithmetic is idealised over `ℝ`.
-/

namespace TransformerFromScratch

/-! ### Causal mask (`forward_mask`) -/

/-- Entry of `torch.triu(torch.ones((1, n, n)), diagonal=1)`: `triu` keeps an
entry of the all-ones tensor iff its column index is at least the row index
plus `diagonal`, and zeroes it otherwise. -/
def triuOnes (n : ℕ) (diagonal : ℤ) : Fin 1 → Fin n → Fin n → ℕ :=
  fun _ i j => if (i : ℤ) + diagonal ≤ (j : ℤ) then 1 else 0

/-- Source `forward_mask(size)`: build `triu(ones((1, size, size)), diagonal=1)`
and return the elementwise comparison `mask == 0`. -/
def forward_mask (n : ℕ) : Fin 1 → Fin n → Fin n → Bool :=
  fun b i j => triuOnes n 1 b i j == 0

/-! ### Scaled dot-product attention (`attention`), value level

A single batch element is a matrix; `torch.matmul` over the last two axes is
ordinary matrix multiplication.  `d_k = query.shape[-1]` is the last
dimension of the query, which in this embedding is the column index type of
`query`. -/

/-- Raw scores of the source `attention`:
`x = torch.matmul(query, key.transpose(-2, -1)) / math.sqrt(d_k)` with
`d_k = query.shape[-1]`. -/
noncomputable def scoresSrc {sq sk dk : ℕ}
    (query : Matrix (Fin sq) (Fin dk) ℝ) (key : Matrix (Fin sk) (Fin dk) ℝ) :
    Matrix (Fin sq) (Fin sk) ℝ :=
  fun i j => (∑ t, query i t * key j t) / Real.sqrt (dk : ℝ)

/-- The fill constant the source passes to `masked_fill`: the literal `1e-9`.
It is a small positive number, not a large negative one. -/
noncomputable def maskFillValue : ℝ := 1 / 1000000000

/-- Source `x.masked_fill(mask == 0, fill)`: positions where the boolean mask
is false receive the fill value, the rest keep their score. -/
def maskedFill {sq sk : ℕ} (mask : Fin sq → Fin sk → Bool) (fill : ℝ)
    (x : Matrix (Fin sq) (Fin sk) ℝ) : Matrix (Fin sq) (Fin sk) ℝ :=
  fun i j => if mask i j then x i j else fill

/-- Source `x.softmax(dim=-1)`, one row at a time.  (PyTorch subtracts the
row maximum before exponentiating for numerical stability; over `ℝ` that
rescaling cancels, so the direct formula is the same function.) -/
noncomputable def softmaxRow {n : ℕ} (v : Fin n → ℝ) : Fin n → ℝ :=
  fun j => Real.exp (v j) / ∑ t, Real.exp (v t)

/-- The attention weights the source computes before the optional dropout:
raw scores, then `masked_fill(mask == 0, 1e-9)` when a mask is supplied,
then row-wise softmax. -/
noncomputable def attnWeightsSrc {sq sk dk : ℕ}
    (query : Matrix (Fin sq) (Fin dk) ℝ) (key : Matrix (Fin sk) (Fin dk) ℝ)
    (mask : Option (Fin sq → Fin sk → Bool)) : Matrix (Fin sq) (Fin sk) ℝ :=
  let x := scoresSrc query key
  let y := match mask with
    | some m => maskedFill m maskFillValue x
    | none => x
  fun i => softmaxRow (y i)

/-- Source `attention(query, key, value, mask=None, dropout=None)`.  Its
return statement is `return scaled_attention`: a single tensor, the product
of the (possibly dropped-out) weights with `value`.  Dropout is modelled as
an arbitrary map on the weight matrix when present. -/
noncomputable def attentionSrc {sq sk dk dv : ℕ}
    (query : Matrix (Fin sq) (Fin dk) ℝ) (key : Matrix (Fin sk) (Fin dk) ℝ)
    (value : Matrix (Fin sk) (Fin dv) ℝ)
    (mask : Option (Fin sq → Fin sk → Bool))
    (dropout : Option (Matrix (Fin sq) (Fin sk) ℝ → Matrix (Fin sq) (Fin sk) ℝ)) :
    Matrix (Fin sq) (Fin dv) ℝ :=
  let w := attnWeightsSrc query key mask
  let w2 := match dropout with
    | some d => d w
    | none => w
  fun i j => ∑ t, w2 i t * value t j

/-- Source `attention` with `nn.Dropout` modelled as sampling from a random
seed: when a dropout module is present its effect may depend on the seed,
when `dropout=None` the seed is never consulted. -/
noncomputable def attentionSeeded {sq sk dk dv : ℕ}
    (query : Matrix (Fin sq) (Fin dk) ℝ) (key : Matrix (Fin sk) (Fin dk) ℝ)
    (value : Matrix (Fin sk) (Fin dv) ℝ)
    (mask : Option (Fin sq → Fin sk → Bool))
    (dropout : Option (ℕ → Matrix (Fin sq) (Fin sk) ℝ → Matrix (Fin sq) (Fin sk) ℝ))
    (seed : ℕ) : Matrix (Fin sq) (Fin dv) ℝ :=
  let w := attnWeightsSrc query key mask
  let w2 := match dropout with
    | some d => d seed w
    | none => w
  fun i j => ∑ t, w2 i t * value t j

/-! ### Shape-level tensor operations

For the claims about tensor shapes we model each PyTorch operation the
source uses as a partial function on shapes (lists of dimension sizes),
`none` being the runtime error PyTorch raises. -/

/-- Number of elements of a tensor with the given shape. -/
def listProd (l : List ℕ) : ℕ := l.foldl (fun a b => a * b) 1

/-- Shape of `t.view(pre..., -1, post...)`: the `-1` dimension is inferred;
PyTorch errors when the element count is not divisible by the product of the
known dimensions. -/
def viewInferShape (orig pre post : List ℕ) : Option (List ℕ) :=
  let total := listProd orig
  let known := listProd pre * listProd post
  if known ≠ 0 ∧ total % known = 0 then some (pre ++ (total / known) :: post)
  else none

/-- Shape of `t.transpose(i, j)`: swap two dimensions; error when an index is
out of range. -/
def transposeShape (l : List ℕ) (i j : ℕ) : Option (List ℕ) :=
  if i < l.length ∧ j < l.length then
    some ((l.set i (l.getD j 0)).set j (l.getD i 0))
  else none

/-- Shape of batched `torch.matmul a b`: equal leading batch dimensions,
`[n, m] @ [m, p] = [n, p]` on the last two axes. -/
def matmulShape (a b : List ℕ) : Option (List ℕ) :=
  match a.reverse, b.reverse with
  | m :: n :: ra, p :: m2 :: rb =>
      if m = m2 ∧ ra = rb then some ((n :: ra).reverse ++ [p]) else none
  | _, _ => none

/-- Shape of `nn.Linear(inF, outF)` applied to a tensor: the last dimension
must equal `inF` and becomes `outF`. -/
def linearShape (l : List ℕ) (inF outF : ℕ) : Option (List ℕ) :=
  match l.reverse with
  | d :: rest => if d = inF then some ((outF :: rest).reverse) else none
  | [] => none

/-- The Python tuple unpacking `x, attn = t` of a single tensor `t`: iterates
over the first dimension, succeeding with two pieces (each of the remaining
shape) exactly when that dimension is 2. -/
def unpackTwo (l : List ℕ) : Option (List ℕ) :=
  match l with
  | n :: rest => if n = 2 then some rest else none
  | [] => none

/-- Shape of the attention-weight tensor the source `attention` computes
internally: `matmul(query, key.transpose(-2, -1))` (the subsequent
`masked_fill` / `softmax(dim=-1)` / dropout all preserve the shape). -/
def attnWeightsShapeSrc (q k : List ℕ) : Option (List ℕ) := do
  let kT ← transposeShape k (k.length - 2) (k.length - 1)
  matmulShape q kT

/-- Shape behaviour of the source `attention` function: the weight tensor's
shape, then `matmul` with `value`.  The function returns this one shape: its
return statement `return scaled_attention` is a single tensor. -/
def attentionShapeSrc (q k v : List ℕ) : Option (List ℕ) := do
  let w ← attnWeightsShapeSrc q k
  matmulShape w v

/-- Shape behaviour of the source `MultiHeadAttention.forward` on inputs of
shape `[batch, seq, dModel]`, following the source line by line:

1. `lin(x)` for each of query/key/value — `nn.Linear(d_model, d_model)`;
2. `.view(num_batches, -1, self.h, self.d_k).transpose(1, 2)`;
3. `attention(query, key, value, mask, self.dropout)` — which returns one
   tensor — unpacked by `x, self.attn = ...` into two values;
4. `x.transpose(1, 2).contiguous().view(num_batches, -1, self.h * self.d_k)`
   (`contiguous` does not change the shape);
5. `self.linears[-1](x)`. -/
def mhaForwardShape (h dModel batch seq : ℕ) : Option (List ℕ) := do
  let dK := dModel / h
  let p ← linearShape [batch, seq, dModel] dModel dModel
  let s1 ← viewInferShape p [batch] [h, dK]
  let s2 ← transposeShape s1 1 2
  let attnOut ← attentionShapeSrc s2 s2 s2
  let x0 ← unpackTwo attnOut
  let s3 ← transposeShape x0 1 2
  let s4 ← viewInferShape s3 [batch] [h * dK]
  linearShape s4 dModel dModel

/-! ### `MultiHeadAttention.__init__` -/

/-- The notebook's import cell brings in `torch`, `torch.nn`, `math`, `copy`,
`time`, `pandas` and `altair`; the module `numbers`, which `clone` uses in
`assert isinstance(num_of_clones, numbers.Integral)`, is never imported. -/
def numbersImported : Bool := false

/-- Source `MultiHeadAttention.__init__(h, d_model)`, returning the pair
`(h, d_k)` the constructed module would hold, or `none` when construction
raises:

* `d_model % h` raises `ZeroDivisionError` when `h = 0`;
* `assert d_model % h == 0` raises when the remainder is nonzero;
* `clone(nn.Linear(d_model, d_model), 4)` then runs
  `assert isinstance(num_of_clones, numbers.Integral)`, which raises
  `NameError` because `numbers` is not imported. -/
def mhaInitSrc (h dModel : ℕ) : Option (ℕ × ℕ) :=
  if h = 0 then none
  else if dModel % h ≠ 0 then none
  else if numbersImported then some (h, dModel / h)
  else none

/-- Modelled from the spec: construction succeeds iff `d_model % h == 0`,
with per-head dimension `d_k = d_model / h` (spec §4.2 and §7; the missing
`numbers` import is an incomplete-tutorial artifact per spec §9). -/
def mhaInitIntended (h dModel : ℕ) : Option (ℕ × ℕ) :=
  if h = 0 then none
  else if dModel % h = 0 then some (h, dModel / h)
  else none

/-! ### `LayerNorm` -/

/-- The learned state of `LayerNorm.__init__(features, eps)`. -/
structure LayerNormM (d : ℕ) where
  eps : ℝ
  gamma : Fin d → ℝ
  beta : Fin d → ℝ

/-- Source `LayerNorm.__init__`: stores `eps` (default `1e-6`), `gamma`
initialised to `torch.ones(features)` and `beta` to `torch.zeros(features)`. -/
noncomputable def layerNormInit (d : ℕ) (eps : ℝ) : LayerNormM d :=
  ⟨eps, fun _ => 1, fun _ => 0⟩

/-- The default value of the `eps` parameter in the source: `1e-6`. -/
noncomputable def layerNormDefaultEps : ℝ := 1 / 1000000

/-- Source `x.mean(dim=-1, keepdim=True)` for one position vector. -/
noncomputable def meanLast {d : ℕ} (x : Fin d → ℝ) : ℝ := (∑ i, x i) / (d : ℝ)

/-- Source `x.std(dim=-1, keepdim=True)` for one position vector: PyTorch's
`std` is the unbiased sample standard deviation (denominator `d - 1`). -/
noncomputable def stdLast {d : ℕ} (x : Fin d → ℝ) : ℝ :=
  Real.sqrt ((∑ i, (x i - meanLast x) ^ 2) / ((d : ℝ) - 1))

/-- Source `LayerNorm.forward`:
`return self.gamma * (x - mean) / (std + eps) + self.beta`.  The name `eps`
here is a bare global name, not `self.eps`; `globalEps` is the value a
global of that name would hold (`none` in this notebook, where no global
`eps` exists, so the call raises `NameError`). -/
noncomputable def layerNormForwardSrc {d : ℕ} (globalEps : Option ℝ)
    (self : LayerNormM d) (x : Fin d → ℝ) : Option (Fin d → ℝ) :=
  globalEps.map fun eps =>
    fun i => self.gamma i * (x i - meanLast x) / (stdLast x + eps) + self.beta i

/-! ### `Sublayer` -/

/-- The state of `Sublayer.__init__(size, dropout)`: a `LayerNorm` stored in
the attribute `layernorm` and an `nn.Dropout` stored in `dropout`.  No other
attribute is set. -/
structure SublayerM (α : Type) where
  layernorm : α → α
  dropout : α → α

/-- The attribute names `Sublayer.forward` refers to. -/
inductive SublayerAttr : Type
  | layernorm
  | dropout
  | norm

/-- Python attribute lookup on a `Sublayer` instance: `__init__` sets only
`layernorm` and `dropout`, so looking up `norm` raises `AttributeError`. -/
def SublayerM.getattr {α : Type} (self : SublayerM α) :
    SublayerAttr → Option (α → α)
  | SublayerAttr.layernorm => some self.layernorm
  | SublayerAttr.dropout => some self.dropout
  | SublayerAttr.norm => none

/-- Source `Sublayer.forward(x, sublayer_protagonist)` as written:
`return x + self.dropout(sublayer_protagonist(self.norm(x)))` — it reads the
attribute `norm`, which `__init__` never set. -/
def sublayerForwardSrc {α : Type} [Add α] (self : SublayerM α)
    (f : α → α) (x : α) : Option α :=
  (self.getattr SublayerAttr.norm).map fun norm => x + self.dropout (f (norm x))

/-- Modelled from the spec: the intended `Sublayer.forward` contract,
`x + dropout(f(layernorm(x)))` (spec §4.3; the `norm`/`layernorm` attribute
mismatch is an incomplete-tutorial artifact per spec §9). -/
def sublayerForwardIntended {α : Type} [Add α] (self : SublayerM α)
    (f : α → α) (x : α) : α :=
  x + self.dropout (f (self.layernorm x))

/-! ### `Encoder` / `Decoder` stacks -/

/-- The state of `Encoder.__init__(encoder_layer, N)`: the attribute
`encoder_stack` holds `N` deep copies of the template layer. -/
structure EncoderM (α : Type) where
  encoder_stack : List (α → α)

/-- The state of `Decoder.__init__(decoder_layer, N)`. -/
structure DecoderM (α : Type) where
  decoder_stack : List (α → α)

/-- Source `Encoder.forward(x)` as written: `for encoder in encoder_stack:`
iterates the bare global name `encoder_stack`, not `self.encoder_stack`;
`globalStack` is the value such a global would hold (`none` in this
notebook, so the call raises `NameError`). -/
def encoderForwardSrc {α : Type} (globalStack : Option (List (α → α)))
    (_self : EncoderM α) (x : α) : Option α :=
  globalStack.map fun stack => stack.foldl (fun a f => f a) x

/-- Source `Decoder.forward(x)` as written: likewise iterates the bare
global name `decoder_stack`. -/
def decoderForwardSrc {α : Type} (globalStack : Option (List (α → α)))
    (_self : DecoderM α) (x : α) : Option α :=
  globalStack.map fun stack => stack.foldl (fun a f => f a) x

/-- Modelled from the spec: the intended `Encoder.forward`, folding the
instance's own `encoder_stack` in order (spec §4.8; the missing `self.`
qualifier is an incomplete-tutorial artifact per spec §9). -/
def encoderForwardIntended {α : Type} (self : EncoderM α) (x : α) : α :=
  self.encoder_stack.foldl (fun a f => f a) x

/-! ### Concrete inputs used as evaluation points -/

/-- A concrete 1×1 all-zero query. -/
noncomputable def q1 : Matrix (Fin 1) (Fin 1) ℝ := fun _ _ => 0

/-- A concrete 2×1 all-zero key. -/
noncomputable def k1 : Matrix (Fin 2) (Fin 1) ℝ := fun _ _ => 0

/-- The mask `[[True, False]]`: key position 1 is masked out (mask false) for
the single query position. -/
def m1 : Fin 1 → Fin 2 → Bool := fun _ j => j == 0

/-! ### Theorems for the claims -/

/-- C2: `forward_mask n` is a boolean tensor of shape `(1, n, n)` (the type
of the definition) whose entry at `(i, j)` is true iff `j ≤ i`; in
particular every diagonal entry is true. -/
theorem forward_mask_causal (n : ℕ) (b : Fin 1) (i j : Fin n) :
    (forward_mask n b i j = true ↔ (j : ℕ) ≤ (i : ℕ))
      ∧ forward_mask n b i i = true := by
  have key : ∀ i j : Fin n, forward_mask n b i j = true ↔ (j : ℕ) ≤ (i : ℕ) := by
    intro i j
    simp only [forward_mask, triuOnes, beq_iff_eq]
    by_cases h : (i : ℤ) + 1 ≤ (j : ℤ)
    · rw [if_pos h]
      constructor
      · intro hc; exact absurd hc one_ne_zero
      · intro hc
        have : (j : ℤ) ≤ (i : ℤ) := by exact_mod_cast hc
        omega
    · rw [if_neg h]
      constructor
      · intro _
        have : (j : ℤ) < (i : ℤ) + 1 := lt_of_not_le h
        have : (j : ℤ) ≤ (i : ℤ) := by omega
        exact_mod_cast this
      · intro _; rfl
  exact ⟨key i j, (key i i).mpr le_rfl⟩

/-- C3 (evaluation of the source at its failing point): `Sublayer.forward`
reads the attribute `self.norm`, which `__init__` never sets (it sets
`self.layernorm`), so the forward call raises `AttributeError` for every
input `x` and every sublayer function `f` instead of computing
`x + dropout(f(layernorm(x)))`. -/
theorem sublayer_forward_attribute_error :
    ∀ (α : Type) [Add α], ∀ (self : SublayerM α) (f : α → α) (x : α),
      sublayerForwardSrc self f x = none :=
  fun _ _ _ _ _ => rfl

/-- C4 (evaluation of the source at its failing point): `LayerNorm.forward`
divides by `(std + eps)` where `eps` is a bare global name the notebook
never defines, so the call raises `NameError` for every input; the
initialiser does set `gamma` to ones, `beta` to zeros, and the default
`eps` parameter is `1e-6`. -/
theorem layerNorm_forward_eps_name_error :
    (∀ (d : ℕ) (self : LayerNormM d) (x : Fin d → ℝ),
      layerNormForwardSrc none self x = none)
    ∧ (layerNormInit 4 layerNormDefaultEps).eps = 1 / 1000000
    ∧ ∀ i : Fin 4, (layerNormInit 4 layerNormDefaultEps).gamma i = 1
        ∧ (layerNormInit 4 layerNormDefaultEps).beta i = 0 :=
  ⟨fun _ _ _ => rfl, rfl, fun _ => ⟨rfl, rfl⟩⟩

/-- C7 (evaluation of the source at its failing point): constructing
`MultiHeadAttention(2, 16)` — a valid divisor — still fails, because
`clone`'s `isinstance` check references the never-imported module `numbers`;
the intended construction (modelled from the spec) succeeds iff
`d_model % h == 0`, with `d_k = d_model / h`. -/
theorem mhaInit_numbers_name_error :
    mhaInitSrc 2 16 = none
    ∧ ∀ h d : ℕ, 0 < h →
        ((mhaInitIntended h d = some (h, d / h) ↔ d % h = 0)
          ∧ (mhaInitIntended h d = none ↔ d % h ≠ 0)) := by
  refine ⟨rfl, ?_⟩
  intro h d hh
  have hne : h ≠ 0 := Nat.pos_iff_ne_zero.mp hh
  by_cases hm : d % h = 0 <;> simp [mhaInitIntended, hne, hm]

/-- Witness for `mhaInit_numbers_name_error` at `h = 2`, `d_model = 16`. -/
theorem mhaInit_numbers_name_error_w :
    0 < 2
    ∧ ((mhaInitIntended 2 16 = some (2, 8) ↔ 16 % 2 = 0)
      ∧ (mhaInitIntended 2 16 = none ↔ 16 % 2 ≠ 0)) :=
  ⟨by decide, mhaInit_numbers_name_error.2 2 16 (by decide)⟩

/-- C8 (evaluation of the source at its failing point): `Encoder.forward`
and `Decoder.forward` iterate the bare global names `encoder_stack` /
`decoder_stack`, which the notebook never defines, so every forward call
raises `NameError`; the intended forward (modelled from the spec) is the
sequential fold of the instance's own layers, which is the identity for an
empty stack and post-composes the last layer of a non-empty one. -/
theorem encoder_decoder_stack_name_error :
    (∀ (α : Type) (self : EncoderM α) (x : α), encoderForwardSrc none self x = none)
    ∧ (∀ (α : Type) (self : DecoderM α) (x : α), decoderForwardSrc none self x = none)
    ∧ (∀ (α : Type) (x : α), encoderForwardIntended ⟨[]⟩ x = x)
    ∧ ∀ (α : Type) (fs : List (α → α)) (f : α → α) (x : α),
        encoderForwardIntended ⟨fs ++ [f]⟩ x = f (encoderForwardIntended ⟨fs⟩ x) := by
  refine ⟨fun _ _ _ => rfl, fun _ _ _ => rfl, fun _ _ => rfl, ?_⟩
  intro α fs f x
  simp [encoderForwardIntended, List.foldl_append]

/-- C9: with dropout disabled (`None`, or a probability-0 dropout, which
keeps every entry and rescales by 1), the attention forward is a pure
function of query/key/value/mask: two evaluations with different random
seeds return equal outputs. -/
theorem attention_deterministic_no_dropout :
    ∀ (sq sk dk dv : ℕ) (query : Matrix (Fin sq) (Fin dk) ℝ)
      (key : Matrix (Fin sk) (Fin dk) ℝ) (value : Matrix (Fin sk) (Fin dv) ℝ)
      (mask : Option (Fin sq → Fin sk → Bool)) (s1 s2 : ℕ),
      attentionSeeded query key value mask none s1
          = attentionSeeded query key value mask none s2
        ∧ attentionSeeded query key value mask (some (fun _ w => w)) s1
          = attentionSeeded query key value mask (some (fun _ w => w)) s2 :=
  fun _ _ _ _ _ _ _ _ _ _ => ⟨rfl, rfl⟩

/-- C10: the scaling divisor of the raw scores is `√(query.shape[-1])` —
the query's actual last dimension, fixed by `query`'s type in this
embedding — and for any last dimension `d ≥ 1` the divisor is positive, so
the division genuinely rescales: multiplying back by `√d` recovers the raw
dot products. -/
theorem attention_scale_query_last_dim (sq sk dk : ℕ) (hdk : 1 ≤ dk)
    (query : Matrix (Fin sq) (Fin dk) ℝ) (key : Matrix (Fin sk) (Fin dk) ℝ)
    (i : Fin sq) (j : Fin sk) :
    0 < Real.sqrt (dk : ℝ)
    ∧ scoresSrc query key i j * Real.sqrt (dk : ℝ) = ∑ t, query i t * key j t := by
  have hpos : (0 : ℝ) < Real.sqrt (dk : ℝ) := by
    apply Real.sqrt_pos.mpr
    exact_mod_cast Nat.lt_of_lt_of_le Nat.zero_lt_one hdk
  refine ⟨hpos, ?_⟩
  unfold scoresSrc
  exact div_mul_cancel₀ _ (ne_of_gt hpos)

/-- Witness for `attention_scale_query_last_dim` at `d_k = 1` with the
concrete query `q1` and key `k1`. -/
theorem attention_scale_query_last_dim_w :
    1 ≤ 1
    ∧ (0 < Real.sqrt ((1 : ℕ) : ℝ)
      ∧ scoresSrc q1 k1 0 0 * Real.sqrt ((1 : ℕ) : ℝ) = ∑ t, q1 0 t * k1 0 t) :=
  ⟨le_rfl, attention_scale_query_last_dim 1 2 1 le_rfl q1 k1 0 0⟩

/-- C1 (evaluation of the source at its failing point): the source fills
masked-out scores with the small positive constant `1e-9` instead of a very
large negative number, so softmax does not suppress them.  With the all-zero
1×1 query `q1`, the all-zero 2×1 key `k1` and the mask `[[True, False]]`,
the attention weight at the masked-out position `(0, 1)` is
`e^(1e-9) / (1 + e^(1e-9)) ≥ 1/2`, far above the claimed `1e-5` bound. -/
theorem attention_masked_weight_not_small :
    1 / 100000 < attnWeightsSrc q1 k1 (some m1) 0 1 := by
  have hscore : ∀ j : Fin 2, scoresSrc q1 k1 0 j = 0 := by
    intro j
    simp [scoresSrc, q1, k1]
  have hval : attnWeightsSrc q1 k1 (some m1) 0 1
      = Real.exp maskFillValue / (Real.exp 0 + Real.exp maskFillValue) := by
    simp [attnWeightsSrc, softmaxRow, maskedFill, m1, hscore, Fin.sum_univ_two]
  rw [hval, Real.exp_zero]
  have hE : (1 : ℝ) ≤ Real.exp maskFillValue :=
    Real.one_le_exp (by norm_num [maskFillValue])
  rw [div_lt_div_iff₀ (by norm_num) (by positivity)]
  nlinarith [hE]

/-- C5 (evaluation of the source at its failing point): on inputs of shape
`[1, seq_q, d_k] = [1, 3, 2]` the source `attention` returns one tensor, of
the output shape `[1, 3, 2] = [..., seq_q, d_v]`; the attention-weight
tensor it computes internally has shape `[1, 3, 3] = [..., seq_q, seq_k]`
but is not part of the return value, so unpacking the return into the
`(output, weights)` pair the contract and the caller expect fails. -/
theorem attention_returns_single_tensor :
    attentionShapeSrc [1, 3, 2] [1, 3, 2] [1, 3, 2] = some [1, 3, 2]
    ∧ attnWeightsShapeSrc [1, 3, 2] [1, 3, 2] = some [1, 3, 3]
    ∧ (attentionShapeSrc [1, 3, 2] [1, 3, 2] [1, 3, 2]).bind unpackTwo = none :=
  ⟨rfl, rfl, rfl⟩

/-- C6 (evaluation of the source at its failing point): with `h = 2`,
`d_model = 4`, the multi-head forward on a `[1, 3, 4]` input fails (the
tuple unpacking `x, self.attn = attention(...)` errors because the returned
tensor's first dimension is the batch size 1, not 2), and on a `[2, 4, 4]`
input it returns shape `[2, 2, 4]`, not the claimed `[batch, seq, d_model]
= [2, 4, 4]`. -/
theorem mha_forward_shape_bug :
    mhaForwardShape 2 4 1 3 = none ∧ mhaForwardShape 2 4 2 4 = some [2, 2, 4] :=
  ⟨rfl, rfl⟩

end TransformerFromScratch
